import Mathlib

/-!
Shallow embedding of the config-loading pipeline of the repository
(loadTsConfig, loadInTsEnv, transpileAndImport, createTsConfig,
loadTsConfigWithSchema, isKnownCause), together with a model of the
platform capabilities the code calls into (posix path functions, the
filesystem, the dynamic module importer, the esbuild compiler and the
Zod schema validator).  Stateful code is embedded with explicit state
passing: every filesystem effect is recorded as an event in an event
list returned alongside the result.
-/

set_option maxHeartbeats 1000000

mutual

/-- A JavaScript runtime value, as far as the config pipeline observes it:
null, undefined, booleans, numbers (the configs under test only use
integral numbers), strings, arrays and plain objects.  Objects and module
namespace objects are ordered lists of name-value bindings. -/
inductive JSValue where
  | null : JSValue
  | undefined : JSValue
  | bool (b : Bool) : JSValue
  | num (n : Int) : JSValue
  | str (s : String) : JSValue
  | arr (items : JSArr) : JSValue
  | obj (fields : JSObj) : JSValue
deriving DecidableEq

inductive JSArr where
  | nil : JSArr
  | cons (head : JSValue) (tail : JSArr) : JSArr
deriving DecidableEq

inductive JSObj where
  | nil : JSObj
  | cons (key : String) (val : JSValue) (tail : JSObj) : JSObj
deriving DecidableEq

end

/-- Property lookup on an object: the value bound to a key, if any. -/
def JSObj.find? : JSObj → String → Option JSValue
  | .nil, _ => none
  | .cons k v t, key => if k = key then some v else t.find? key

/-- Property access as JavaScript sees it: a missing property reads as
undefined. -/
def JSObj.get (o : JSObj) (key : String) : JSValue :=
  (o.find? key).getD .undefined

/-- The list of keys of an object, in order: the model of Object.keys. -/
def JSObj.keys : JSObj → List String
  | .nil => []
  | .cons k _ t => k :: t.keys

/-- JavaScript truthiness of a value. -/
def truthy : JSValue → Bool
  | .null => false
  | .undefined => false
  | .bool b => b
  | .num n => n != 0
  | .str s => s ≠ ""
  | .arr _ => true
  | .obj _ => true

/-- Whether the JavaScript typeof operator reports "object" for the value
(true for null, arrays and plain objects). -/
def typeofIsObject : JSValue → Bool
  | .null => true
  | .arr _ => true
  | .obj _ => true
  | _ => false

/-- A JavaScript Error as the pipeline observes it: an optional code
property (such as ERR_UNKNOWN_FILE_EXTENSION) and a message. -/
structure JSError where
  code : Option String
  message : String
deriving DecidableEq

/-- An Error.cause object of the shape the pipeline throws: a type tag and
an optional reason sub-code. -/
structure Cause where
  type : String
  reason : Option String := none
deriving DecidableEq

/-- A failure of the pipeline: either an Error thrown by the code itself,
carrying a tagged cause and a message, or a raw error propagated verbatim
from the module importer. -/
inductive LoadErr where
  | cause (c : Cause) (message : String) : LoadErr
  | raw (e : JSError) : LoadErr
deriving DecidableEq

/-- A filesystem effect performed by the pipeline: a file write with its
content, or an attempted deletion. -/
inductive FsEvent where
  | write (path : String) (content : String) : FsEvent
  | unlink (path : String) : FsEvent
deriving DecidableEq

/-! Model of the posix path functions the source calls
(path.isAbsolute, path.dirname, path.relative, path.extname), for
normalized absolute paths as the pipeline uses them. -/

/-- Model of posix path.isAbsolute: the path begins with a slash. -/
def isAbsolutePath (p : String) : Bool :=
  match p.data with
  | '/' :: _ => true
  | _ => false

/-- Splits a character list on a separator character. -/
def splitCharsOn (sep : Char) : List Char → List (List Char)
  | [] => [[]]
  | c :: cs =>
    match splitCharsOn sep cs with
    | [] => [[]]
    | s :: rest => if c = sep then [] :: s :: rest else (c :: s) :: rest

/-- The nonempty segments of a path. -/
def pathSegments (p : String) : List String :=
  ((splitCharsOn '/' p.data).map String.mk).filter (fun s => s ≠ "")

/-- Model of posix path.dirname for absolute paths: all segments but the
last. -/
def posixDirname (p : String) : String :=
  match (pathSegments p).dropLast with
  | [] => "/"
  | ss => "/" ++ String.intercalate "/" ss

/-- Drops the longest common segment run from the heads of two segment
lists. -/
def dropCommonSegments : List String → List String → List String × List String
  | a :: as, b :: bs =>
    if a = b then dropCommonSegments as bs else (a :: as, b :: bs)
  | as, bs => (as, bs)

/-- Model of posix path.relative on normalized absolute paths: one ".."
per segment left of the source directory, then the remaining target
segments. -/
def posixRelative (src dst : String) : String :=
  let (fr, t) := dropCommonSegments (pathSegments src) (pathSegments dst)
  String.intercalate "/" (fr.map (fun _ => "..") ++ t)

/-- The final path segment (model of posix path.basename for ordinary
file paths). -/
def posixBasename (p : String) : String :=
  (pathSegments p).getLastD ""

/-- The suffix of a character list starting at its last dot, if any. -/
def lastDotSuffix : List Char → Option (List Char)
  | [] => none
  | c :: cs =>
    match lastDotSuffix cs with
    | some s => some s
    | none => if c = '.' then some (c :: cs) else none

/-- Model of posix path.extname: the extension of the final segment, empty
when the segment has no dot or its only role is a leading dot. -/
def posixExtname (p : String) : String :=
  let b := posixBasename p
  match lastDotSuffix b.data with
  | none => ""
  | some s => if s.length = b.data.length then "" else String.mk s

/-! Model of the JavaScript string and JSON primitives the source uses:
String.prototype.trim and JSON.stringify with a 4-space indent. -/

/-- Whitespace as JavaScript trim removes it (the characters relevant to
generated config text). -/
def isJsWs (c : Char) : Bool :=
  c = ' ' || c = '\t' || c = '\n' || c = '\r' || c = '\x0b' || c = '\x0c'

/-- Trims JavaScript whitespace from both ends of a character list. -/
def trimChars (cs : List Char) : List Char :=
  ((cs.dropWhile isJsWs).reverse.dropWhile isJsWs).reverse

/-- Model of JavaScript String.prototype.trim. -/
def jsTrim (s : String) : String :=
  String.mk (trimChars s.data)

/-- JSON escaping of one character, as JSON.stringify performs it on the
characters that occur in config values. -/
def jsonEscapeChar (c : Char) : String :=
  if c = '\"' then "\\\""
  else if c = '\\' then "\\\\"
  else if c = '\n' then "\\n"
  else if c = '\t' then "\\t"
  else if c = '\r' then "\\r"
  else if c = '\x08' then "\\b"
  else if c = '\x0c' then "\\f"
  else String.singleton c

/-- A JSON string literal for s. -/
def jsonQuote (s : String) : String :=
  "\"" ++ String.join (s.data.map jsonEscapeChar) ++ "\""

/-- The indentation JSON.stringify uses at a nesting level when called
with an indent argument of 4. -/
def jsonIndent (level : Nat) : String :=
  String.mk (List.replicate (4 * level) ' ')

mutual

/-- Model of JSON.stringify(v, undefined, 4) at a nesting level: none
models the undefined result for an undefined input. -/
def stringifyVal (level : Nat) : JSValue → Option String
  | .null => some "null"
  | .undefined => none
  | .bool b => some (cond b "true" "false")
  | .num n => some (toString n)
  | .str s => some (jsonQuote s)
  | .arr items =>
    some (match stringifyArrItems (level + 1) items with
      | [] => "[]"
      | ls =>
        "[\n" ++ String.intercalate ",\n" (ls.map (fun l => jsonIndent (level + 1) ++ l))
          ++ "\n" ++ jsonIndent level ++ "]")
  | .obj fields =>
    some (match stringifyObjItems (level + 1) fields with
      | [] => "\x7b\x7d"
      | ls =>
        "\x7b\n" ++ String.intercalate ",\n" (ls.map (fun l => jsonIndent (level + 1) ++ l))
          ++ "\n" ++ jsonIndent level ++ "\x7d")

/-- The rendered elements of an array: an undefined element renders as
null, as JSON.stringify does. -/
def stringifyArrItems (level : Nat) : JSArr → List String
  | .nil => []
  | .cons v t => ((stringifyVal level v).getD "null") :: stringifyArrItems level t

/-- The rendered key-value entries of an object: entries whose value is
undefined are skipped, as JSON.stringify does. -/
def stringifyObjItems (level : Nat) : JSObj → List String
  | .nil => []
  | .cons k v t =>
    match stringifyVal level v with
    | none => stringifyObjItems level t
    | some s => (jsonQuote k ++ ": " ++ s) :: stringifyObjItems level t

end

/-- Model of the template interpolation of JSON.stringify(config,
undefined, 4): an undefined stringify result interpolates as the text
undefined. -/
def jsonStringifyTop (v : JSValue) : String :=
  (stringifyVal 0 v).getD "undefined"

/-! Embedding of the repository source: the data model of
CreateIfNotFound in types.ts, createTsConfig.ts, loadTsConfig.ts
(loadTsConfig, loadInTsEnv, transpileAndImport),
loadTsConfigWithSchema.ts and the isKnownCause recognizer of
error-types.ts. -/

/-- Where the identifier of a type constraint is declared: a package name
or an absolute path of a local declaration file (the source field of
constrainToType in types.ts). -/
inductive TypeSource where
  | pkg (packageName : String) : TypeSource
  | localFile (absolutePath : String) : TypeSource
deriving DecidableEq

/-- The constrainToType option of CreateIfNotFound in types.ts. -/
structure ConstrainToType where
  identifier : String
  source : TypeSource
deriving DecidableEq

/-- The CreateIfNotFound record of types.ts.  The optional boolean
immediatelyUseConfig is embedded as a Bool, false standing for both false
and absent, which the code treats alike. -/
structure CreateIfNotFound where
  config : JSValue
  immediatelyUseConfig : Bool := false
  constrainToType : Option ConstrainToType := none
deriving DecidableEq

/-- Whether a string begins with a dot (the startsWith check of
createTsConfig). -/
def startsWithDot (s : String) : Bool :=
  match s.data with
  | '.' :: _ => true
  | _ => false

/-- The import source text createTsConfig computes for a type constraint:
the package name for a package source, and for a local source the path
relative to the directory of the target file, with "./" forced in front
when the computed relative path does not already start with a dot. -/
def typeSourceText (absolutePath : String) : TypeSource → String
  | .pkg packageName => packageName
  | .localFile typePath =>
    let source := posixRelative (posixDirname absolutePath) typePath
    if startsWithDot source then source else "./" ++ source

/-- The message of the invalid-path error createTsConfig throws for a
non-absolute path. -/
def pathMustBeAbsoluteMsg (p : String) : String :=
  "Path must be absolute: received \"" ++ p ++ "\""

/-- The message of the invalid-path error createTsConfig throws for a
path without a file extension. -/
def lacksExtensionMsg (p : String) : String :=
  "The provided path \"" ++ p ++ "\" appears to be a directory because it lacks a file extension. Please provide a complete path to a file (e.g., \"" ++ p ++ ".ts\")."

/-- Embedding of createTsConfig of createTsConfig.ts.  The function
validates the path, renders the file content and writes it; the content
written is returned here and the caller records the write event. -/
def createTsConfig (absolutePath : String) (details : CreateIfNotFound) :
    Except LoadErr String :=
  if ¬ isAbsolutePath absolutePath then
    .error (.cause ⟨"invalid_path", none⟩ (pathMustBeAbsoluteMsg absolutePath))
  else if posixExtname absolutePath = "" then
    .error (.cause ⟨"invalid_path", none⟩ (lacksExtensionMsg absolutePath))
  else
    let declLine :=
      jsTrim ("export const config"
        ++ (match details.constrainToType with
            | some c => ":" ++ c.identifier
            | none => "")
        ++ " = " ++ jsonStringifyTop details.config ++ ";")
    let withImport :=
      match details.constrainToType with
      | some c =>
        "import type \x7b" ++ c.identifier ++ "\x7d from \""
          ++ typeSourceText absolutePath c.source ++ "\";\n\n" ++ declLine
      | none => declLine
    .ok ("// Please review and adjust these settings as needed for your project.\n\n"
      ++ withImport)

/-- The capabilities of the host environment the pipeline calls into: file
existence, the native dynamic importer keyed by path, the esbuild build
step (returning the text of the first output file, if any), the importer
for the transpiled scratch file, the temporary directory and the random
scratch-file token of the call, and which unlink calls fail. -/
structure Env where
  fsExists : String → Bool
  importFile : String → Except JSError JSObj
  build : String → Except JSError (Option String)
  importScratch : String → Except JSError JSObj
  tmpdir : String
  tempId : String
  unlinkFails : String → Bool

/-- The result shape of loadInTsEnv: success carrying the module, or
failure carrying the noTs classification and the original error. -/
inductive TsEnvResult where
  | success (mod : JSObj) : TsEnvResult
  | failure (noTs : Bool) (error : JSError) : TsEnvResult
deriving DecidableEq

/-- Embedding of loadInTsEnv of loadTsConfig.ts: a dynamic import whose
failure is classified as noTs exactly when the error code is
ERR_UNKNOWN_FILE_EXTENSION. -/
def loadInTsEnv (env : Env) (absolutePath : String) : TsEnvResult :=
  match env.importFile absolutePath with
  | .ok mod => .success mod
  | .error e => .failure (e.code = some "ERR_UNKNOWN_FILE_EXTENSION") e

/-- The scratch-file path transpileAndImport uses: the temporary
directory joined with a name derived from the random token of the
call. -/
def tempFilePath (env : Env) : String :=
  env.tmpdir ++ "/temp-config-" ++ env.tempId ++ ".mjs"

/-- The message of the transpile-failed error of transpileAndImport. -/
def transpileFailedMsg : String :=
  "Could not transpile the config file."

/-- Embedding of transpileAndImport of loadTsConfig.ts: build the source
with esbuild, fail with transpile_failed when no output text is produced
(an empty string is falsy and also fails), write the emitted code to the
scratch file, import it and return the whole module namespace.  The
finally block attempts to unlink the scratch file on every exit path and
swallows deletion failures, so the unlink event is recorded last
unconditionally and the unlinkFails capability is never consulted for
the result. -/
def transpileAndImport (env : Env) (absolutePath : String) :
    Except LoadErr JSObj × List FsEvent :=
  let tempFile := tempFilePath env
  match env.build absolutePath with
  | .error e => (.error (.raw e), [.unlink tempFile])
  | .ok jsCodeOpt =>
    match jsCodeOpt with
    | none => (.error (.cause ⟨"transpile_failed", none⟩ transpileFailedMsg), [.unlink tempFile])
    | some jsCode =>
      if jsCode = "" then
        (.error (.cause ⟨"transpile_failed", none⟩ transpileFailedMsg), [.unlink tempFile])
      else
        match env.importScratch tempFile with
        | .error e => (.error (.raw e), [.write tempFile jsCode, .unlink tempFile])
        | .ok mod => (.ok mod, [.write tempFile jsCode, .unlink tempFile])

/-- Embedding of the export-disambiguation tail of loadTsConfig: prefer a
truthy default export of object type; otherwise take the keys of the
module namespace, throw no_exports when the first key is absent or
falsy, throw uncertain_export when there is more than one key, and
return the value of the single key otherwise. -/
def resolveExports (mod : JSObj) : Except LoadErr JSValue :=
  let d := mod.get "default"
  if truthy d && typeofIsObject d then
    .ok d
  else
    let keys := mod.keys
    match keys.head? with
    | none => .error (.cause ⟨"no_exports", none⟩ "The config file must export something.")
    | some firstKey =>
      if firstKey = "" then
        .error (.cause ⟨"no_exports", none⟩ "The config file must export something.")
      else if keys.length > 1 then
        .error (.cause ⟨"uncertain_export", none⟩ "The config file must only have one export (or provide a default).")
      else
        .ok (mod.get firstKey)

/-- The message of the halt-and-check error of loadTsConfig. -/
def haltAndCheckMsg (p : String) : String :=
  "A config file has been created at \"" ++ p ++ "\". Please check the options and re-run this."

/-- The message of the file-not-found error of loadTsConfig. -/
def fileNotFoundMsg (p : String) : String :=
  "File not found: received \"" ++ p ++ "\""

/-- Embedding of loadTsConfig of loadTsConfig.ts: validate that the path
is absolute, bootstrap a missing file from createIfNotFound (returning
the supplied config immediately or halting for review), and for an
existing file run the native import, falling back to transpilation
exactly on the noTs classification, propagating any other import error
verbatim, and finish with export disambiguation. -/
def loadTsConfig (env : Env) (absolutePath : String)
    (createIfNotFound : Option CreateIfNotFound) :
    Except LoadErr JSValue × List FsEvent :=
  if ¬ isAbsolutePath absolutePath then
    (.error (.cause ⟨"invalid_path", none⟩ (pathMustBeAbsoluteMsg absolutePath)), [])
  else if ¬ env.fsExists absolutePath then
    match createIfNotFound with
    | some req =>
      match createTsConfig absolutePath req with
      | .error err => (.error err, [])
      | .ok content =>
        if req.immediatelyUseConfig then
          (.ok req.config, [.write absolutePath content])
        else
          (.error (.cause ⟨"halt_and_check", none⟩ (haltAndCheckMsg absolutePath)),
            [.write absolutePath content])
    | none => (.error (.cause ⟨"file_not_found", none⟩ (fileNotFoundMsg absolutePath)), [])
  else
    match loadInTsEnv env absolutePath with
    | .success mod => (resolveExports mod, [])
    | .failure noTs e =>
      if noTs then
        match transpileAndImport env absolutePath with
        | (.error err, evs) => (.error err, evs)
        | (.ok mod, evs) => (resolveExports mod, evs)
      else
        (.error (.raw e), [])

/-! Embedding of the schema layer of loadTsConfigWithSchema.ts and the
recognizer of error-types.ts. -/

/-- One Zod validation issue: the field path (array indices rendered as
their decimal text, as join does) and the human-readable message. -/
structure ZodIssue where
  path : List String
  message : String
deriving DecidableEq

/-- The result of Zod safeParse: the parsed data on success, the issue
list on failure. -/
inductive SafeParseResult where
  | success (data : JSValue) : SafeParseResult
  | failure (errors : List ZodIssue) : SafeParseResult
deriving DecidableEq

/-- The external Zod schema capability: an object exposing safeParse. -/
structure ZodSchema where
  safeParse : JSValue → SafeParseResult

/-- One line of the aggregated validation message: the dotted field path,
or the literal root when joining the path gives an empty string, then a
colon and the issue message. -/
def issueLine (err : ZodIssue) : String :=
  let p := String.intercalate "." err.path
  (if p = "" then "root" else p) ++ ": " ++ err.message

/-- Embedding of convertSchemaErrorIntoMessage of
loadTsConfigWithSchema.ts: one line per issue, joined by newlines. -/
def convertSchemaErrorIntoMessage (errors : List ZodIssue) : String :=
  String.intercalate "\n" (errors.map issueLine)

/-- The message of the invalid-default-config-format error. -/
def defaultMismatchMsg (errors : List ZodIssue) : String :=
  "createIfNotFound.config did not match schema. Validation errors: \n"
    ++ convertSchemaErrorIntoMessage errors

/-- The message of the invalid-config-format error. -/
def configMismatchMsg (errors : List ZodIssue) : String :=
  "Config file did not match schema. Validation errors: \n"
    ++ convertSchemaErrorIntoMessage errors

/-- The load-then-validate tail of loadTsConfigWithSchema: run
loadTsConfig, validate the loaded object against the schema, and on
success return the loaded object itself, not the parser output. -/
def loadAndValidate (env : Env) (absolutePath : String) (schema : ZodSchema)
    (createIfNotFound : Option CreateIfNotFound) :
    Except LoadErr JSValue × List FsEvent :=
  match loadTsConfig env absolutePath createIfNotFound with
  | (.error e, evs) => (.error e, evs)
  | (.ok obj, evs) =>
    match schema.safeParse obj with
    | .failure errs =>
      (.error (.cause ⟨"invalid_config_format", none⟩ (configMismatchMsg errs)), evs)
    | .success _ => (.ok obj, evs)

/-- Embedding of loadTsConfigWithSchema of loadTsConfigWithSchema.ts:
when a createIfNotFound request is present its config is validated
against the schema first, before any other step, and a mismatch fails
with invalid_default_config_format; then the load-and-validate tail
runs. -/
def loadTsConfigWithSchema (env : Env) (absolutePath : String)
    (schema : ZodSchema) (createIfNotFound : Option CreateIfNotFound) :
    Except LoadErr JSValue × List FsEvent :=
  match createIfNotFound with
  | some req =>
    match schema.safeParse req.config with
    | .failure errs =>
      (.error (.cause ⟨"invalid_default_config_format", none⟩ (defaultMismatchMsg errs)), [])
    | .success _ => loadAndValidate env absolutePath schema createIfNotFound
  | none => loadAndValidate env absolutePath schema none

/-- The switch of isKnownCause on the type property: exactly the six
string literals of the ConfigLoadErrorCause union of error-types.ts are
recognized. -/
def isKnownCauseType : JSValue → Bool
  | .str "file_not_found" => true
  | .str "halt_and_check" => true
  | .str "no_exports" => true
  | .str "uncertain_export" => true
  | .str "invalid_default_config_format" => true
  | .str "invalid_config_format" => true
  | _ => false

/-- Embedding of isKnownCause of error-types.ts (re-exported through
index.ts): falsy values, non-objects and objects without a type property
are rejected, then the type property is switched on. -/
def isKnownCause (cause : JSValue) : Bool :=
  if ¬ (truthy cause && typeofIsObject cause) then false
  else
    match cause with
    | .obj fields =>
      match fields.find? "type" with
      | some t => isKnownCauseType t
      | none => false
    | _ => false

deriving instance DecidableEq for Except

/-! Shared concrete fixtures used by the closed evaluations below. -/

/-- A host environment in which no path exists and every capability
fails: the validation branches under test never consult it. -/
def envDead : Env :=
  ⟨fun _ => false, fun _ => .error ⟨none, ""⟩, fun _ => .error ⟨none, ""⟩,
   fun _ => .error ⟨none, ""⟩, "/tmp", "aa", fun _ => false⟩

/-- A host environment whose native importer reports the
unknown-file-extension code and whose compiler produces no output
text. -/
def envNoBuildOutput : Env :=
  ⟨fun _ => true, fun _ => .error ⟨some "ERR_UNKNOWN_FILE_EXTENSION", "unknown extension"⟩,
   fun _ => .ok none, fun _ => .error ⟨none, ""⟩, "/tmp", "bb", fun _ => false⟩

/-- A host environment in which every path exists and the native importer
returns the given module namespace. -/
def envNative (mod : JSObj) : Env :=
  ⟨fun _ => true, fun _ => .ok mod, fun _ => .error ⟨none, ""⟩,
   fun _ => .error ⟨none, ""⟩, "/tmp", "cc", fun _ => false⟩

/-- A module namespace with a single default export that is an object. -/
def modDefaultObj : JSObj :=
  JSObj.cons "default" (.obj (JSObj.cons "port" (.num 3000) (JSObj.cons "extra" (.str "kept") .nil))) .nil

/-- A schema that rejects every value with a single port issue. -/
def schemaRejectPort : ZodSchema :=
  ⟨fun _ => .failure [⟨["port"], "Expected number, received string"⟩]⟩

/-- A schema that accepts every value but returns a stripped (empty)
parse output. -/
def schemaStripAll : ZodSchema :=
  ⟨fun _ => .success (.obj .nil)⟩

/-! Helper lemmas about the trim model. -/

lemma dropWhileEqSelf {p : Char → Bool} {l : List Char} {a : Char}
    (h : l.head? = some a) (hp : p a = false) : l.dropWhile p = l := by
  cases l with
  | nil => simp at h
  | cons x xs =>
    simp only [List.head?_cons, Option.some.injEq] at h
    subst h
    simp [List.dropWhile_cons, hp]

lemma trimCharsEqSelf {l : List Char} {a b : Char}
    (h1 : l.head? = some a) (ha : isJsWs a = false)
    (h2 : l.getLast? = some b) (hb : isJsWs b = false) : trimChars l = l := by
  unfold trimChars
  rw [dropWhileEqSelf h1 ha]
  rw [dropWhileEqSelf (by rw [List.head?_reverse]; exact h2) hb]
  exact List.reverse_reverse l

lemma jsTrimEqSelf {s : String} {a b : Char}
    (h1 : s.data.head? = some a) (ha : isJsWs a = false)
    (h2 : s.data.getLast? = some b) (hb : isJsWs b = false) : jsTrim s = s := by
  unfold jsTrim
  rw [trimCharsEqSelf h1 ha h2 hb]

lemma dataAppend (s t : String) : (s ++ t).data = s.data ++ t.data := rfl

/-- The trim in createTsConfig leaves the rendered declaration unchanged:
it starts with the letter e of export and ends with a semicolon. -/
lemma jsTrim_export_decl (mid : String) :
    jsTrim ("export const config" ++ mid ++ ";") = "export const config" ++ mid ++ ";" := by
  apply jsTrimEqSelf (a := 'e') (b := ';')
  · simp [dataAppend, List.head?_append]
  · decide
  · rw [dataAppend, List.getLast?_append_of_ne_nil]
    · rfl
    · decide
  · decide

/-! Claim C1. -/

/-- The export rule as the amended claim C1 states it: a truthy default
binding of object type wins; otherwise all bound names including a
non-object default are counted, giving no_exports for none (or an empty
first name), the single value for one, and uncertain_export for more. -/
def exportRuleAmended (mod : JSObj) : Except LoadErr JSValue :=
  let d := mod.get "default"
  if truthy d && typeofIsObject d then
    .ok d
  else
    match mod.keys with
    | [] => .error (.cause ⟨"no_exports", none⟩ "The config file must export something.")
    | [k] =>
      if k = "" then
        .error (.cause ⟨"no_exports", none⟩ "The config file must export something.")
      else
        .ok (mod.get k)
    | k :: _ :: _ =>
      if k = "" then
        .error (.cause ⟨"no_exports", none⟩ "The config file must export something.")
      else
        .error (.cause ⟨"uncertain_export", none⟩ "The config file must only have one export (or provide a default).")

/-- Claim C1, counterexample: a module with a non-object default binding
and exactly one other named export.  The claim predicts the named export
is returned (the names other than default being exactly one), but the
code counts the default binding among the keys and fails with
uncertain_export. -/
theorem resolveExports_nonobject_default_cex :
    resolveExports (JSObj.cons "default" (.num 42) (JSObj.cons "foo" (.obj (JSObj.cons "a" (.num 1) .nil)) .nil))
      = .error (.cause ⟨"uncertain_export", none⟩ "The config file must only have one export (or provide a default).")
  ∧ resolveExports (JSObj.cons "default" (.num 42) (JSObj.cons "foo" (.obj (JSObj.cons "a" (.num 1) .nil)) .nil))
      ≠ .ok (.obj (JSObj.cons "a" (.num 1) .nil)) :=
  ⟨rfl, by decide⟩

/-- Claim C1, amended: export resolution returns a truthy default binding
of object type when present; otherwise it counts all bound names, the
default included, failing no_exports for zero names (or an empty first
name), returning the single value for one name, and failing
uncertain_export for several. -/
theorem resolveExports_matches_amended_rule (mod : JSObj) :
    resolveExports mod = exportRuleAmended mod := by
  unfold resolveExports exportRuleAmended
  cases hd : truthy (mod.get "default") && typeofIsObject (mod.get "default") with
  | true => simp [hd]
  | false =>
    simp only [hd, Bool.false_eq_true, if_false]
    cases hk : mod.keys with
    | nil => simp
    | cons k rest =>
      cases rest with
      | nil => by_cases hks : k = "" <;> simp [hks]
      | cons k2 r2 =>
        by_cases hks : k = "" <;> simp [hks, List.length_cons]

/-! Claim C2. -/

/-- Claim C2: the pipeline emits the causes invalid_path (from the
absolute-path check of loadTsConfig) and transpile_failed (from the
compile fallback), yet the isKnownCause recognizer rejects both, while
it does accept the six causes of the ConfigLoadErrorCause union.  This
contradicts the documented contract that the recognizer covers every
cause the loaders may emit. -/
theorem isKnownCause_rejects_emitted_causes :
    (loadTsConfig envDead "relative.ts" none).1
      = .error (.cause ⟨"invalid_path", none⟩ (pathMustBeAbsoluteMsg "relative.ts"))
  ∧ (transpileAndImport envNoBuildOutput "/a/cfg.ts").1
      = .error (.cause ⟨"transpile_failed", none⟩ transpileFailedMsg)
  ∧ isKnownCause (.obj (JSObj.cons "type" (.str "invalid_path") .nil)) = false
  ∧ isKnownCause (.obj (JSObj.cons "type" (.str "transpile_failed") .nil)) = false
  ∧ isKnownCause (.obj (JSObj.cons "type" (.str "file_not_found") .nil)) = true
  ∧ isKnownCause (.obj (JSObj.cons "type" (.str "halt_and_check") .nil)) = true
  ∧ isKnownCause (.obj (JSObj.cons "type" (.str "no_exports") .nil)) = true
  ∧ isKnownCause (.obj (JSObj.cons "type" (.str "uncertain_export") .nil)) = true
  ∧ isKnownCause (.obj (JSObj.cons "type" (.str "invalid_default_config_format") .nil)) = true
  ∧ isKnownCause (.obj (JSObj.cons "type" (.str "invalid_config_format") .nil)) = true :=
  ⟨rfl, rfl, rfl, rfl, rfl, rfl, rfl, rfl, rfl, rfl⟩

/-! Claim C3. -/

/-- A creation request asking for the new config to be used
immediately. -/
def reqImmediate : CreateIfNotFound :=
  ⟨.obj (JSObj.cons "port" (.num 3000) .nil), true, none⟩

/-- Claim C3, counterexample: an absolute missing path without a file
extension.  The claim predicts that a call with a creation request
writes the file and returns the default config, but the code fails with
invalid_path from the directory heuristic of createTsConfig and writes
nothing. -/
theorem loadTsConfig_extensionless_create_cex :
    loadTsConfig envDead "/a/config" (some reqImmediate)
      = (.error (.cause ⟨"invalid_path", none⟩ (lacksExtensionMsg "/a/config")), [])
  ∧ reqImmediate.immediatelyUseConfig = true :=
  ⟨rfl, rfl⟩

/-- Claim C3, amended: for an absolute missing path that has a file
extension, a call without a creation request fails file_not_found; a
call with a creation request writes the rendered config file and then
either returns the supplied config object directly (when
immediatelyUseConfig is true; the result does not depend on any reading
capability of the environment) or fails halt_and_check; for an absolute
missing path without an extension the creation branch fails invalid_path
and performs no write. -/
theorem loadTsConfig_missing_path_amended (env : Env) (p : String)
    (req : CreateIfNotFound)
    (hAbs : isAbsolutePath p = true) (hMiss : env.fsExists p = false)
    (hExt : posixExtname p ≠ "") :
    loadTsConfig env p none
      = (.error (.cause ⟨"file_not_found", none⟩ (fileNotFoundMsg p)), [])
  ∧ (∃ content, createTsConfig p req = .ok content)
  ∧ (∀ content, createTsConfig p req = .ok content →
      (req.immediatelyUseConfig = true →
        loadTsConfig env p (some req) = (.ok req.config, [.write p content]))
    ∧ (req.immediatelyUseConfig = false →
        loadTsConfig env p (some req)
          = (.error (.cause ⟨"halt_and_check", none⟩ (haltAndCheckMsg p)), [.write p content]))) := by
  refine ⟨?_, ?_, ?_⟩
  · simp [loadTsConfig, hAbs, hMiss]
  · simp [createTsConfig, hAbs, hExt]
  · intro content hc
    constructor
    · intro hi
      simp [loadTsConfig, hAbs, hMiss, hc, hi]
    · intro hi
      simp [loadTsConfig, hAbs, hMiss, hc, hi]

/-- Witness for claim C3 at a concrete environment and path. -/
theorem loadTsConfig_missing_path_amended_witness :
    isAbsolutePath "/a/cfg.ts" = true
  ∧ envDead.fsExists "/a/cfg.ts" = false
  ∧ posixExtname "/a/cfg.ts" ≠ ""
  ∧ loadTsConfig envDead "/a/cfg.ts" none
      = (.error (.cause ⟨"file_not_found", none⟩ (fileNotFoundMsg "/a/cfg.ts")), []) :=
  ⟨rfl, rfl, by decide,
    (loadTsConfig_missing_path_amended envDead "/a/cfg.ts" reqImmediate rfl rfl (by decide)).1⟩

/-! Claim C4. -/

/-- Claim C4 (confirmed): for an existing path, when the native import
fails, loadTsConfig falls back to the compile-then-load path exactly
when the failure carries the unknown-file-extension code; any other
native failure is propagated to the caller unchanged, with no fallback
and no filesystem activity. -/
theorem loadTsConfig_fallback_exactly_on_unknown_extension (env : Env)
    (p : String) (req : Option CreateIfNotFound) (e : JSError)
    (hAbs : isAbsolutePath p = true) (hEx : env.fsExists p = true)
    (hErr : env.importFile p = .error e) :
    (e.code = some "ERR_UNKNOWN_FILE_EXTENSION" →
      loadTsConfig env p req
        = (match transpileAndImport env p with
           | (.error err, evs) => (.error err, evs)
           | (.ok mod, evs) => (resolveExports mod, evs)))
  ∧ (e.code ≠ some "ERR_UNKNOWN_FILE_EXTENSION" →
      loadTsConfig env p req = (.error (.raw e), [])) := by
  constructor
  · intro hc
    simp [loadTsConfig, hAbs, hEx, loadInTsEnv, hErr, hc]
  · intro hc
    simp [loadTsConfig, hAbs, hEx, loadInTsEnv, hErr, hc]

/-- A host environment whose native importer fails with a syntax error
(no code property) on every path. -/
def envSyntaxErr : Env :=
  ⟨fun _ => true, fun _ => .error ⟨none, "syntax error"⟩, fun _ => .ok (some "code"),
   fun _ => .ok .nil, "/tmp", "dd", fun _ => false⟩

/-- Witness for claim C4 at concrete environments: an importer failing
with the unknown-extension code falls back, and one failing with a
syntax error propagates that error verbatim. -/
theorem loadTsConfig_fallback_witness :
    loadTsConfig envNoBuildOutput "/a/cfg.ts" none
      = (match transpileAndImport envNoBuildOutput "/a/cfg.ts" with
         | (.error err, evs) => (.error err, evs)
         | (.ok mod, evs) => (resolveExports mod, evs))
  ∧ loadTsConfig envSyntaxErr "/a/cfg.ts" none = (.error (.raw ⟨none, "syntax error"⟩), []) :=
  ⟨(loadTsConfig_fallback_exactly_on_unknown_extension envNoBuildOutput "/a/cfg.ts" none
      ⟨some "ERR_UNKNOWN_FILE_EXTENSION", "unknown extension"⟩ rfl rfl rfl).1 rfl,
   (loadTsConfig_fallback_exactly_on_unknown_extension envSyntaxErr "/a/cfg.ts" none
      ⟨none, "syntax error"⟩ rfl rfl rfl).2 (by decide)⟩

lemma strAppendAssoc (a b c : String) : a ++ b ++ c = a ++ (b ++ c) :=
  String.ext (by simp [dataAppend, List.append_assoc])

/-! Claim C5. -/

/-- Claim C5, counterexample: a local type-declaration file whose name
begins with a dot, in the same directory as the target file.  The
computed relative path already starts with a dot, so no prefix is
forced, and the resulting specifier begins with neither "./" nor
"../". -/
theorem local_import_specifier_cex :
    typeSourceText "/a/b/cfg.ts" (TypeSource.localFile "/a/b/.types.ts") = ".types.ts"
  ∧ (".types.ts" : String).data.take 2 ≠ ['.', '/']
  ∧ (".types.ts" : String).data.take 3 ≠ ['.', '.', '/'] :=
  ⟨rfl, by decide, by decide⟩

/-- Claim C5, amended: the import specifier for a local type constraint
is the relative path computed from the directory containing the target
file to the type-declaration file, with "./" forced in front when that
relative path does not already start with a dot; the specifier
therefore always begins with a dot (though not always with "./" or
"../"), and target /a/b/cfg.ts with type source /a/types.ts yields
../types.ts. -/
theorem local_import_specifier_amended :
    (∀ target typePath,
      typeSourceText target (TypeSource.localFile typePath)
        = (if startsWithDot (posixRelative (posixDirname target) typePath) then
            posixRelative (posixDirname target) typePath
          else "./" ++ posixRelative (posixDirname target) typePath)
      ∧ startsWithDot (typeSourceText target (TypeSource.localFile typePath)) = true)
  ∧ typeSourceText "/a/b/cfg.ts" (TypeSource.localFile "/a/types.ts") = "../types.ts" := by
  constructor
  · intro target typePath
    constructor
    · rfl
    · unfold typeSourceText
      by_cases h : startsWithDot (posixRelative (posixDirname target) typePath)
      · simp [h]
      · simp only [h, Bool.false_eq_true, if_false]
        rfl
  · rfl

/-! Claim C6. -/

/-- The creation details used to exercise the generated file layout. -/
def detailsTyped : CreateIfNotFound :=
  ⟨.obj (JSObj.cons "theme" (.str "dark") .nil), false,
   some ⟨"AppThemeConfig", .localFile "/a/types.ts"⟩⟩

/-- Claim C6, counterexample: the generated file puts the review banner
first, then the import line, then the declaration; the claimed order
(import line first, banner second) does not match the produced text. -/
theorem createTsConfig_layout_cex :
    createTsConfig "/a/b/cfg.ts" detailsTyped
      = .ok ("// Please review and adjust these settings as needed for your project.\n\nimport type \x7bAppThemeConfig\x7d from \"../types.ts\";\n\nexport const config:AppThemeConfig = \x7b\n    \"theme\": \"dark\"\n\x7d;")
  ∧ ("// Please review and adjust these settings as needed for your project.\n\nimport type \x7bAppThemeConfig\x7d from \"../types.ts\";\n\nexport const config:AppThemeConfig = \x7b\n    \"theme\": \"dark\"\n\x7d;" : String)
      ≠ "import type \x7bAppThemeConfig\x7d from \"../types.ts\";\n\n// Please review and adjust these settings as needed for your project.\n\nexport const config:AppThemeConfig = \x7b\n    \"theme\": \"dark\"\n\x7d;" :=
  ⟨rfl, by decide⟩

/-- Claim C6, amended: for every write of a config file with a type
constraint, the generated text consists, in this exact order, of the
review banner comment line, a blank line, the import line for the type
identifier, a blank line, and the export declaration with the config
serialized as a JSON literal with 4-space indent. -/
theorem createTsConfig_layout_amended (p : String) (details : CreateIfNotFound)
    (c : ConstrainToType)
    (hAbs : isAbsolutePath p = true) (hExt : posixExtname p ≠ "")
    (hc : details.constrainToType = some c) :
    createTsConfig p details
      = .ok ("// Please review and adjust these settings as needed for your project.\n\n"
          ++ ("import type \x7b" ++ c.identifier ++ "\x7d from \""
              ++ typeSourceText p c.source ++ "\";\n\n"
              ++ ("export const config" ++ (":" ++ c.identifier) ++ " = "
                  ++ jsonStringifyTop details.config ++ ";"))) := by
  have htrim : jsTrim ("export const config" ++ (":" ++ c.identifier) ++ " = "
      ++ jsonStringifyTop details.config ++ ";")
      = "export const config" ++ (":" ++ c.identifier) ++ " = "
      ++ jsonStringifyTop details.config ++ ";" := by
    apply jsTrimEqSelf (a := 'e') (b := ';')
    · simp [dataAppend, List.head?_append]
    · decide
    · rw [dataAppend, List.getLast?_append_of_ne_nil]
      · rfl
      · decide
    · decide
  simp [createTsConfig, hAbs, hExt, hc, htrim]

/-- Witness for claim C6 at concrete inputs. -/
theorem createTsConfig_layout_amended_witness :
    createTsConfig "/a/b/cfg.ts" detailsTyped
      = .ok ("// Please review and adjust these settings as needed for your project.\n\n"
          ++ ("import type \x7b" ++ "AppThemeConfig" ++ "\x7d from \""
              ++ typeSourceText "/a/b/cfg.ts" (TypeSource.localFile "/a/types.ts") ++ "\";\n\n"
              ++ ("export const config" ++ (":" ++ "AppThemeConfig") ++ " = "
                  ++ jsonStringifyTop detailsTyped.config ++ ";"))) :=
  createTsConfig_layout_amended "/a/b/cfg.ts" detailsTyped
    ⟨"AppThemeConfig", TypeSource.localFile "/a/types.ts"⟩ rfl (by decide) rfl

/-! Claim C7. -/

/-- Claim C7 (confirmed): when the default config of a creation request
does not conform to the schema, loadTsConfigWithSchema fails with cause
invalid_default_config_format and performs no filesystem operation: the
event list of the call is empty, so no config file is created or
written. -/
theorem loadWithSchema_invalid_default_blocks_fs (env : Env) (p : String)
    (schema : ZodSchema) (req : CreateIfNotFound) (errs : List ZodIssue)
    (h : schema.safeParse req.config = .failure errs) :
    loadTsConfigWithSchema env p schema (some req)
      = (.error (.cause ⟨"invalid_default_config_format", none⟩ (defaultMismatchMsg errs)), []) := by
  simp [loadTsConfigWithSchema, h]

/-- Witness for claim C7 at a concrete schema that rejects every
value. -/
theorem loadWithSchema_invalid_default_blocks_fs_witness :
    loadTsConfigWithSchema envDead "/a/cfg.ts" schemaRejectPort (some reqImmediate)
      = (.error (.cause ⟨"invalid_default_config_format", none⟩
          (defaultMismatchMsg [⟨["port"], "Expected number, received string"⟩])), []) :=
  loadWithSchema_invalid_default_blocks_fs envDead "/a/cfg.ts" schemaRejectPort
    reqImmediate [⟨["port"], "Expected number, received string"⟩] rfl

/-! Claim C8. -/

/-- Replaces the unlink-failure capability of an environment (every other
capability is kept). -/
def setUnlinkFails (env : Env) (f : String → Bool) : Env :=
  ⟨env.fsExists, env.importFile, env.build, env.importScratch, env.tmpdir, env.tempId, f⟩

/-- Whether a file at the given path exists after the recorded events
run, starting from a given existence state: a write creates it and an
unlink removes it unless that unlink call fails. -/
def fileAliveAfter (path : String) (unlinkFails : String → Bool) :
    List FsEvent → Bool → Bool
  | [], alive => alive
  | .write q _ :: rest, alive =>
    fileAliveAfter path unlinkFails rest (if q = path then true else alive)
  | .unlink q :: rest, alive =>
    fileAliveAfter path unlinkFails rest (if q = path && !unlinkFails q then false else alive)

/-- Claim C8 (confirmed): on every exit path of transpileAndImport the
last recorded event is an unlink of the scratch file, so the scratch
file does not persist after the call settles whenever its deletion
succeeds, whatever state it started in; and the result of the call is
independent of whether deletions fail, so a deletion failure never
replaces or hides the primary outcome. -/
theorem transpile_scratch_never_persists (env : Env) (p : String) :
    (transpileAndImport env p).2.getLast? = some (.unlink (tempFilePath env))
  ∧ (∀ f, (transpileAndImport (setUnlinkFails env f) p).1 = (transpileAndImport env p).1)
  ∧ (env.unlinkFails (tempFilePath env) = false →
      ∀ b, fileAliveAfter (tempFilePath env) env.unlinkFails
        (transpileAndImport env p).2 b = false) := by
  refine ⟨?_, ?_, ?_⟩
  · unfold transpileAndImport
    rcases hb : env.build p with e | jsCodeOpt
    · rfl
    · rcases jsCodeOpt with _ | jsCode
      · rfl
      · by_cases hz : jsCode = ""
        · simp [hz]
        · rcases hi : env.importScratch (tempFilePath env) with e | mod <;> simp [hz, hi]
  · intro f
    unfold transpileAndImport setUnlinkFails tempFilePath
    rfl
  · intro hu b
    unfold transpileAndImport
    rcases hb : env.build p with e | jsCodeOpt
    · simp [fileAliveAfter, hu]
    · rcases jsCodeOpt with _ | jsCode
      · simp [fileAliveAfter, hu]
      · by_cases hz : jsCode = ""
        · simp [hz, fileAliveAfter, hu]
        · rcases hi : env.importScratch (tempFilePath env) with e | mod <;>
            simp [hz, hi, fileAliveAfter, hu]

/-- Witness for claim C8 at a concrete environment. -/
theorem transpile_scratch_never_persists_witness :
    (transpileAndImport envNoBuildOutput "/a/cfg.ts").2.getLast?
      = some (.unlink (tempFilePath envNoBuildOutput))
  ∧ fileAliveAfter (tempFilePath envNoBuildOutput) envNoBuildOutput.unlinkFails
      (transpileAndImport envNoBuildOutput "/a/cfg.ts").2 true = false :=
  ⟨(transpile_scratch_never_persists envNoBuildOutput "/a/cfg.ts").1,
   (transpile_scratch_never_persists envNoBuildOutput "/a/cfg.ts").2.2 rfl true⟩

/-! Claim C9. -/

/-- Claim C9 (confirmed): every schema failure raised by
loadTsConfigWithSchema, on the default config or on the loaded config,
carries a message that aggregates one line per failing issue, each line
being the dotted field path (or the literal root for a top-level
failure) followed by a colon and the reason; in particular a port issue
with the message Expected number, received string yields the line
"port: Expected number, received string". -/
theorem schema_failure_message_lines (env : Env) (p : String)
    (schema : ZodSchema) (req : CreateIfNotFound) (errs : List ZodIssue)
    (obj : JSValue) (evs : List FsEvent)
    (hdef : schema.safeParse req.config = .failure errs)
    (hload : loadTsConfig env p none = (.ok obj, evs))
    (hobj : schema.safeParse obj = .failure errs) :
    (loadTsConfigWithSchema env p schema (some req)).1
      = .error (.cause ⟨"invalid_default_config_format", none⟩
          ("createIfNotFound.config did not match schema. Validation errors: \n"
            ++ String.intercalate "\n" (errs.map issueLine)))
  ∧ (loadTsConfigWithSchema env p schema none).1
      = .error (.cause ⟨"invalid_config_format", none⟩
          ("Config file did not match schema. Validation errors: \n"
            ++ String.intercalate "\n" (errs.map issueLine)))
  ∧ (∀ e, issueLine e
      = (if String.intercalate "." e.path = "" then "root"
         else String.intercalate "." e.path) ++ ": " ++ e.message)
  ∧ issueLine ⟨["port"], "Expected number, received string"⟩
      = "port: Expected number, received string"
  ∧ issueLine ⟨[], "Required"⟩ = "root: Required" := by
  refine ⟨?_, ?_, fun e => rfl, rfl, rfl⟩
  · simp [loadTsConfigWithSchema, hdef, defaultMismatchMsg, convertSchemaErrorIntoMessage]
  · simp [loadTsConfigWithSchema, loadAndValidate, hload, hobj, configMismatchMsg,
      convertSchemaErrorIntoMessage]

/-- Witness for claim C9 at a concrete environment whose native import
yields a single default object export and whose schema rejects
everything with one port issue. -/
theorem schema_failure_message_lines_witness :
    (loadTsConfigWithSchema (envNative modDefaultObj) "/a/cfg.ts" schemaRejectPort (some reqImmediate)).1
      = .error (.cause ⟨"invalid_default_config_format", none⟩
          ("createIfNotFound.config did not match schema. Validation errors: \n"
            ++ String.intercalate "\n"
              ([(⟨["port"], "Expected number, received string"⟩ : ZodIssue)].map issueLine)))
  ∧ (loadTsConfigWithSchema (envNative modDefaultObj) "/a/cfg.ts" schemaRejectPort none).1
      = .error (.cause ⟨"invalid_config_format", none⟩
          ("Config file did not match schema. Validation errors: \n"
            ++ String.intercalate "\n"
              ([(⟨["port"], "Expected number, received string"⟩ : ZodIssue)].map issueLine))) :=
  ⟨(schema_failure_message_lines (envNative modDefaultObj) "/a/cfg.ts" schemaRejectPort
      reqImmediate [⟨["port"], "Expected number, received string"⟩]
      (.obj (JSObj.cons "port" (.num 3000) (JSObj.cons "extra" (.str "kept") .nil))) []
      rfl rfl rfl).1,
   (schema_failure_message_lines (envNative modDefaultObj) "/a/cfg.ts" schemaRejectPort
      reqImmediate [⟨["port"], "Expected number, received string"⟩]
      (.obj (JSObj.cons "port" (.num 3000) (JSObj.cons "extra" (.str "kept") .nil))) []
      rfl rfl rfl).2.1⟩

/-! Claim C10. -/

/-- Claim C10 (confirmed): when the loaded object conforms to the schema
(and, if a creation request is present, its default also conforms),
loadTsConfigWithSchema returns exactly the object produced by
loadTsConfig, not the parse output of the schema, so properties absent
from the schema are preserved. -/
theorem loadWithSchema_returns_loaded_object (env : Env) (p : String)
    (schema : ZodSchema) (req : Option CreateIfNotFound) (obj data : JSValue)
    (evs : List FsEvent)
    (hreq : ∀ r, req = some r → ∃ d, schema.safeParse r.config = .success d)
    (hload : loadTsConfig env p req = (.ok obj, evs))
    (hparse : schema.safeParse obj = .success data) :
    loadTsConfigWithSchema env p schema req = (.ok obj, evs) := by
  have hcore : loadAndValidate env p schema req = (.ok obj, evs) := by
    simp [loadAndValidate, hload, hparse]
  cases req with
  | none => simpa [loadTsConfigWithSchema] using hcore
  | some r =>
    rcases hreq r rfl with ⟨d, hd⟩
    simpa [loadTsConfigWithSchema, hd] using hcore

/-- Witness for claim C10: a schema whose parse output strips every
property still leaves the returned value equal to the full loaded
object, which differs from the parse output. -/
theorem loadWithSchema_returns_loaded_object_witness :
    loadTsConfigWithSchema (envNative modDefaultObj) "/a/cfg.ts" schemaStripAll none
      = (.ok (.obj (JSObj.cons "port" (.num 3000) (JSObj.cons "extra" (.str "kept") .nil))), [])
  ∧ schemaStripAll.safeParse
      (.obj (JSObj.cons "port" (.num 3000) (JSObj.cons "extra" (.str "kept") .nil)))
      = .success (.obj .nil)
  ∧ (JSValue.obj (JSObj.cons "port" (.num 3000) (JSObj.cons "extra" (.str "kept") .nil)))
      ≠ .obj .nil :=
  ⟨loadWithSchema_returns_loaded_object (envNative modDefaultObj) "/a/cfg.ts" schemaStripAll
      none (.obj (JSObj.cons "port" (.num 3000) (JSObj.cons "extra" (.str "kept") .nil)))
      (.obj .nil) [] (fun r hr => by cases hr) rfl rfl,
   rfl, by decide⟩
